import Mathlib

/-!
Verification of the cost-accrual and periodic-reset engine of the
`dynamic_energy_cost` integration, as implemented in
`custom_components/dynamic_energy_cost/energy_based_sensors.py`.

The mutable fields of `BaseEnergyCostSensor` are embedded as a structure
`SensorState`; the update handler `async_update`, the reset operations
`async_reset` / `_reset_meter`, the restore step of `async_added_to_hass`
and the boundary computation `_calculate_next_reset_time` are embedded as
pure functions over that structure.  Python floats are embedded as exact
rationals (`ℚ`); a value on which Python's `float(...)` would raise is
embedded as a `none` / `malformed` alternative, and an exception escaping
a function is an explicit alternative of its result type.
-/

namespace DynamicEnergyCost

/-- Modelled from the spec: the module imports `DEFAULT_CURRENCY` from
`const.py`, which is not among the available sources.  The spec only says
the unit derivation falls back to "a fixed default currency code"; the
concrete string chosen here is irrelevant to every theorem below (they
only use that it is one fixed string). -/
def DEFAULT_CURRENCY : String := "EUR"

/-- The result of `hass.states.get(sensor_id)` followed by looking at
`.state`, as consumed by `async_update`:
`missing` is `hass.states.get` returning `None`;
`unknown` / `unavailable` are the sentinel state strings `STATE_UNKNOWN`
and `STATE_UNAVAILABLE`;
`numeric q` is a state string that Python's `float()` parses as `q`;
`malformed` is any other state string, on which `float()` raises. -/
inductive FeedValue where
  | missing
  | unknown
  | unavailable
  | numeric (q : ℚ)
  | malformed
deriving DecidableEq

/-- The guard of `async_update` (lines 193-200 of the source): the update
is skipped when a state object is absent or its state is `STATE_UNKNOWN`
or `STATE_UNAVAILABLE`. -/
def feed_skipped : FeedValue → Bool
  | .missing => true
  | .unknown => true
  | .unavailable => true
  | .numeric _ => false
  | .malformed => false

/-- Python's `float(state.state)`: `some q` when parsing succeeds, `none`
when `float()` raises `ValueError` (only reached on feeds that passed the
unavailability guard). -/
def parse_float : FeedValue → Option ℚ
  | .numeric q => some q
  | _ => none

/-- The mutable accrual fields of `BaseEnergyCostSensor`.
`_state` is the running cost (`None` after `__init__`, a number after the
first accrual or reset); `_attr_unit_of_measurement` is the attribute slot
written by the restore step (line 129), which the overriding
`unit_of_measurement` property (lines 107-109) never reads.
The presentational fields (`_base_name`, `_device_name`, `_attr_unique_id`,
device class, icon) carry no accrual state and are omitted. -/
structure SensorState where
  _state : Option ℚ
  _cumulative_energy_kwh : ℚ
  _last_energy_reading : Option ℚ
  _unit_of_measurement : String
  _attr_unit_of_measurement : Option String
deriving DecidableEq

/-- The `unit_of_measurement` property (lines 107-109): it returns
`self._unit_of_measurement`, not the `_attr_unit_of_measurement` slot. -/
def unit_of_measurement (s : SensorState) : String := s._unit_of_measurement

/-- The body of `async_update` (lines 187-231).  The guard skips the
update when either feed is absent/unknown/unavailable.  Both `float()`
parses happen before any field mutation; a parse failure is caught by the
`except` clause after mutating nothing, so the state is returned
unchanged.  With both values parsed: if a previous reading exists and the
new reading is not below it, cost and cumulative energy accrue (with a
`None` running cost treated as 0); if the new reading is below it (counter
rollback) nothing accrues; in every parsed case `_last_energy_reading` is
set to the new reading (line 226). -/
def async_update (s : SensorState) (energy_state price_state : FeedValue) : SensorState :=
  if feed_skipped energy_state || feed_skipped price_state then s
  else
    match parse_float energy_state, parse_float price_state with
    | some current_energy, some price =>
        match s._last_energy_reading with
        | some last =>
            if last ≤ current_energy then
              { s with
                _state := some (s._state.getD 0 + (current_energy - last) * price),
                _cumulative_energy_kwh := s._cumulative_energy_kwh + (current_energy - last),
                _last_energy_reading := some current_energy }
            else
              { s with _last_energy_reading := some current_energy }
        | none => { s with _last_energy_reading := some current_energy }
    | _, _ => s

/-- The service-invoked reset `async_reset` (lines 82-88): zero the cost
and the cumulative energy, leave the last reading untouched. -/
def async_reset (s : SensorState) : SensorState :=
  { s with _state := some 0, _cumulative_energy_kwh := 0 }

/-- The scheduled boundary reset `_reset_meter` (lines 166-177): the same
two assignments as `async_reset` (rescheduling touches no accrual field). -/
def _reset_meter (s : SensorState) : SensorState :=
  { s with _state := some 0, _cumulative_energy_kwh := 0 }

/-- A sequence of `async_update` calls, each seeing one energy reading and
a price feed value, applied left to right. -/
def run_updates (s : SensorState) (p : ℚ) (es : List ℚ) : SensorState :=
  es.foldl (fun st e => async_update st (.numeric e) (.numeric p)) s

/-- The state stipulated by the constant-price accrual property: no energy
reading seen yet, running cost and cumulative energy zero (the running
cost is the zero that `async_reset` writes; right after `__init__` the
cost slot is still `None`). -/
def fresh_state : SensorState :=
  { _state := some 0, _cumulative_energy_kwh := 0, _last_energy_reading := none,
    _unit_of_measurement := DEFAULT_CURRENCY, _attr_unit_of_measurement := none }

/-- A proleptic-Gregorian calendar date, the date part of the
`datetime.datetime` values handled by `_calculate_next_reset_time`. -/
structure Date where
  year : ℕ
  month : ℕ
  day : ℕ
deriving DecidableEq

/-- Python's `calendar.isleap` rule, which `datetime` follows. -/
def is_leap_year (y : ℕ) : Bool :=
  y % 4 == 0 && (y % 100 != 0 || y % 400 == 0)

/-- Number of days in a month of the proleptic Gregorian calendar. -/
def days_in_month (y m : ℕ) : ℕ :=
  if m = 2 then (if is_leap_year y then 29 else 28)
  else if m = 4 ∨ m = 6 ∨ m = 9 ∨ m = 11 then 30
  else 31

/-- The calendar successor of a date. -/
def next_day (d : Date) : Date :=
  if d.day < days_in_month d.year d.month then ⟨d.year, d.month, d.day + 1⟩
  else if d.month < 12 then ⟨d.year, d.month + 1, 1⟩
  else ⟨d.year + 1, 1, 1⟩

/-- `date + timedelta(days=k)`: `k` calendar successors. -/
def add_days : ℕ → Date → Date
  | 0, d => d
  | k + 1, d => add_days k (next_day d)

/-- A `datetime.datetime` value: date plus hour/minute/second/microsecond.
Time zones are not modelled: `datetime + timedelta` and `.replace` on
aware datetimes are pure wall-clock calendar operations. -/
structure Dt where
  date : Date
  hour : ℕ
  minute : ℕ
  second : ℕ
  microsecond : ℕ
deriving DecidableEq

/-- `datetime + timedelta(days=k)` keeps the time of day. -/
def add_days_dt (k : ℕ) (t : Dt) : Dt :=
  { t with date := add_days k t.date }

/-- A date `datetime` accepts. -/
def Date.Valid (d : Date) : Prop :=
  1 ≤ d.month ∧ d.month ≤ 12 ∧ 1 ≤ d.day ∧ d.day ≤ days_in_month d.year d.month

instance (d : Date) : Decidable d.Valid := by
  unfold Date.Valid; infer_instance

/-- A datetime `datetime` accepts. -/
def Dt.Valid (t : Dt) : Prop :=
  t.date.Valid ∧ t.hour < 24 ∧ t.minute < 60 ∧ t.second < 60 ∧ t.microsecond < 1000000

instance (t : Dt) : Decidable t.Valid := by
  unfold Dt.Valid; infer_instance

/-- Strict chronological order on dates (lexicographic on year, month, day). -/
def Date.lt (a b : Date) : Prop :=
  a.year < b.year ∨ (a.year = b.year ∧
    (a.month < b.month ∨ (a.month = b.month ∧ a.day < b.day)))

instance (a b : Date) : Decidable (a.lt b) := by
  unfold Date.lt; infer_instance

/-- Chronological order on dates. -/
def Date.le (a b : Date) : Prop :=
  a.year < b.year ∨ (a.year = b.year ∧
    (a.month < b.month ∨ (a.month = b.month ∧ a.day ≤ b.day)))

instance (a b : Date) : Decidable (a.le b) := by
  unfold Date.le; infer_instance

/-- Strict chronological order on datetimes. -/
def Dt.lt (a b : Dt) : Prop :=
  a.date.lt b.date ∨ (a.date = b.date ∧
    (a.hour < b.hour ∨ (a.hour = b.hour ∧
      (a.minute < b.minute ∨ (a.minute = b.minute ∧
        (a.second < b.second ∨ (a.second = b.second ∧
          a.microsecond < b.microsecond)))))))

instance (a b : Dt) : Decidable (a.lt b) := by
  unfold Dt.lt; infer_instance

/-- Chronological order on datetimes. -/
def Dt.le (a b : Dt) : Prop :=
  a.date.lt b.date ∨ (a.date = b.date ∧
    (a.hour < b.hour ∨ (a.hour = b.hour ∧
      (a.minute < b.minute ∨ (a.minute = b.minute ∧
        (a.second < b.second ∨ (a.second = b.second ∧
          a.microsecond ≤ b.microsecond)))))))

instance (a b : Dt) : Decidable (a.le b) := by
  unfold Dt.le; infer_instance

/-- The body of `_calculate_next_reset_time` (lines 151-160), with the
configured interval as a string argument.
Daily: `current_time.replace(hour=0, minute=0, second=0, microsecond=0) +
timedelta(days=1)`.
Monthly: `(current_time.replace(day=1) + timedelta(days=32)).replace(day=1)`,
time fields then zeroed.
Yearly: `current_time.replace(year=current_time.year + 1, month=1, day=1,
hour=0, minute=0, second=0, microsecond=0)`.
For any other interval no branch assigns `next_reset`, so the final
`return next_reset` raises `UnboundLocalError`; this is the `none` case. -/
def _calculate_next_reset_time (interval : String) (current_time : Dt) : Option Dt :=
  if interval = "daily" then
    some (add_days_dt 1 { current_time with hour := 0, minute := 0, second := 0, microsecond := 0 })
  else if interval = "monthly" then
    let next_month := add_days_dt 32
      { current_time with
        date := { year := current_time.date.year, month := current_time.date.month, day := 1 } }
    some { next_month with
           date := { year := next_month.date.year, month := next_month.date.month, day := 1 },
           hour := 0, minute := 0, second := 0, microsecond := 0 }
  else if interval = "yearly" then
    some { current_time with
           date := { year := current_time.date.year + 1, month := 1, day := 1 },
           hour := 0, minute := 0, second := 0, microsecond := 0 }
  else
    none

/-- The accrual-relevant effect of `BaseEnergyCostSensor.__init__`
(lines 36-56): the accrual fields get their defaults, then
`_schedule_next_reset` runs `_calculate_next_reset_time`; if that raises
(unrecognized interval), the exception escapes the constructor and no
instance exists (`none`). -/
def sensor_init (interval : String) (current_time : Dt) : Option SensorState :=
  match _calculate_next_reset_time interval current_time with
  | none => none
  | some _ =>
      some { _state := none, _cumulative_energy_kwh := 0, _last_energy_reading := none,
             _unit_of_measurement := DEFAULT_CURRENCY, _attr_unit_of_measurement := none }

/-- A value stored under a key of a persisted snapshot's attribute
dictionary: Python `None` or a number.  (The attributes this integration
publishes under the restored keys are exactly numbers and `None`.) -/
inductive AttrValue where
  | null
  | num (q : ℚ)
deriving DecidableEq

/-- A persisted state snapshot as `async_get_last_state` returns it:
the state string (reusing `FeedValue`, whose `missing` alternative plays
the defensively checked `None`) and the attribute entries the restore
step reads.  An `Option` field being `none` means the key is absent, in
which case Python's `attributes.get(key)` returns `None`. -/
structure Snapshot where
  state : FeedValue
  attr_last_energy_reading : Option AttrValue
  attr_cumulative_energy_kwh : Option AttrValue
  attr_unit_of_measurement : Option String
deriving DecidableEq

/-- Python's `float(attributes.get(key))`: a number maps to itself; an
absent key or a stored `None` makes `float(None)` raise `TypeError`
(`none`). -/
def float_attr : Option AttrValue → Option ℚ
  | some (.num q) => some q
  | some .null => none
  | none => none

/-- What Home Assistant persists for this entity: the state string is the
`state` property (`_state`, a `None` cost rendering as the unknown
sentinel), the attribute dictionary holds `extra_state_attributes`
(lines 111-118) plus the `unit_of_measurement` property value added by
the framework.  The derived `average_energy_cost` attribute is never read
back on restore and is omitted. -/
def publish_snapshot (s : SensorState) : Snapshot :=
  { state := match s._state with
             | some q => .numeric q
             | none => .unknown,
    attr_last_energy_reading := some (match s._last_energy_reading with
                                      | some q => .num q
                                      | none => .null),
    attr_cumulative_energy_kwh := some (.num s._cumulative_energy_kwh),
    attr_unit_of_measurement := some s._unit_of_measurement }

/-- The body of `_get_currency` (lines 136-149): the text before the
first `/` of the price sensor's unit of measurement, stripped; the fixed
default when the price entity or its unit attribute is absent or the unit
string is empty (Python truthiness of `""`). -/
def _get_currency (price_unit : Option String) : String :=
  match price_unit with
  | some u => if u = "" then DEFAULT_CURRENCY else ((u.splitOn "/").headD "").trim
  | none => DEFAULT_CURRENCY

/-- Outcome of the restore step: normal completion, or an uncaught
exception escaping `async_added_to_hass` with the fields mutated so far
retained (the method has no `try`/`except`). -/
inductive RestoreOutcome where
  | ok (s : SensorState)
  | raised (s : SensorState)
deriving DecidableEq

/-- The restore step of `async_added_to_hass` (lines 120-132).  When a
snapshot exists and its state string is none of `None`/unknown/
unavailable: `self._state = float(last_state.state)` (a non-numeric state
string raises before any mutation), then
`self._last_energy_reading = float(attributes.get("last_energy_reading"))`
and `self._cumulative_energy_kwh = float(attributes.get("cumulative_energy_kwh"))`
— each `float` raising on an absent or `None` value with the earlier
assignments already applied — and finally the snapshot's unit attribute
is written into `_attr_unit_of_measurement` (line 129), a slot the
`unit_of_measurement` property never reads; `_unit_of_measurement` is not
touched on this path.  Otherwise `_unit_of_measurement = _get_currency()`. -/
def async_added_to_hass (s : SensorState) (last_state : Option Snapshot)
    (price_unit : Option String) : RestoreOutcome :=
  match last_state with
  | none => .ok { s with _unit_of_measurement := _get_currency price_unit }
  | some snap =>
    match snap.state with
    | .missing => .ok { s with _unit_of_measurement := _get_currency price_unit }
    | .unknown => .ok { s with _unit_of_measurement := _get_currency price_unit }
    | .unavailable => .ok { s with _unit_of_measurement := _get_currency price_unit }
    | .malformed => .raised s
    | .numeric q =>
      let s1 := { s with _state := some q }
      match float_attr snap.attr_last_energy_reading with
      | none => .raised s1
      | some l =>
        let s2 := { s1 with _last_energy_reading := some l }
        match float_attr snap.attr_cumulative_energy_kwh with
        | none => .raised s2
        | some c =>
          .ok { s2 with
                _cumulative_energy_kwh := c
                _attr_unit_of_measurement := snap.attr_unit_of_measurement }

/-- Follows the spec's words (refinement side): the first moment
(00:00:00.000000 on day 1) of the calendar month after `T`. -/
def spec_first_of_next_month (T : Dt) : Dt :=
  if T.date.month < 12 then ⟨⟨T.date.year, T.date.month + 1, 1⟩, 0, 0, 0, 0⟩
  else ⟨⟨T.date.year + 1, 1, 1⟩, 0, 0, 0, 0⟩

/-- Follows the spec's words (refinement side): the first moment of
January 1 of the year after `T`. -/
def spec_first_of_next_year (T : Dt) : Dt :=
  ⟨⟨T.date.year + 1, 1, 1⟩, 0, 0, 0, 0⟩

/-- Follows the spec's words (refinement side): `R` is the next midnight
strictly after `T`, i.e. a midnight, strictly after `T`, and no later
than any valid midnight strictly after `T`. -/
def IsNextMidnightAfter (T R : Dt) : Prop :=
  R.hour = 0 ∧ R.minute = 0 ∧ R.second = 0 ∧ R.microsecond = 0 ∧
  Dt.lt T R ∧
  ∀ R' : Dt, R'.Valid → R'.hour = 0 → R'.minute = 0 → R'.second = 0 →
    R'.microsecond = 0 → Dt.lt T R' → Dt.le R R'

/-- Concrete pre-update state for the price-monotonicity counterexample:
running cost 0, a previous reading recorded. -/
def c7_before : SensorState :=
  { _state := some 0, _cumulative_energy_kwh := 0, _last_energy_reading := some 0,
    _unit_of_measurement := "EUR", _attr_unit_of_measurement := none }

/-- Concrete original instance for the restore round-trip: accrued cost 5,
cumulative energy 3, last reading 10, unit label distinct from the
default currency. -/
def c3_original : SensorState :=
  { _state := some 5, _cumulative_energy_kwh := 3, _last_energy_reading := some 10,
    _unit_of_measurement := "XYZ", _attr_unit_of_measurement := none }

/-- The freshly constructed instance the snapshot is restored into. -/
def c3_fresh : SensorState :=
  { _state := none, _cumulative_energy_kwh := 0, _last_energy_reading := none,
    _unit_of_measurement := DEFAULT_CURRENCY, _attr_unit_of_measurement := none }

/-! Theorems. -/

/-- C2: from a state whose last energy reading is `L`, an update carrying
a numeric reading `e < L` with a numeric price leaves the running cost
and the cumulative energy exactly unchanged and sets the last reading to
`e`. -/
theorem C2_rollback_rebases_without_accrual (s : SensorState) (L e p : ℚ)
    (hL : s._last_energy_reading = some L) (hlt : e < L) :
    async_update s (FeedValue.numeric e) (FeedValue.numeric p) =
      { s with _last_energy_reading := some e } := by
  simp [async_update, feed_skipped, parse_float, hL, hlt.not_le]

/-- Witness for C2 at a concrete input: last reading 10, new reading 4. -/
theorem C2_witness :
    async_update (⟨some 7, 2, some 10, "EUR", none⟩ : SensorState)
        (FeedValue.numeric 4) (FeedValue.numeric 3) =
      ⟨some 7, 2, some 4, "EUR", none⟩ :=
  C2_rollback_rebases_without_accrual _ 10 4 3 rfl (by norm_num)

/-- C4: when either feed is absent or reports unknown/unavailable, the
update returns the state entirely unchanged. -/
theorem C4_unavailable_feed_noop (s : SensorState) (ef pf : FeedValue)
    (h : feed_skipped ef = true ∨ feed_skipped pf = true) :
    async_update s ef pf = s := by
  rcases h with h | h <;> simp [async_update, h]

/-- Witness for C4 at a concrete input: unavailable energy feed. -/
theorem C4_witness :
    async_update (⟨some 7, 2, some 10, "EUR", none⟩ : SensorState)
        FeedValue.unavailable (FeedValue.numeric 3) =
      ⟨some 7, 2, some 10, "EUR", none⟩ :=
  C4_unavailable_feed_noop _ _ _ (Or.inl rfl)

/-- C5: a boundary reset zeroes the running cost and the cumulative
energy, leaves the last energy reading unchanged, and is idempotent. -/
theorem C5_reset_zeroes_and_is_idempotent (s : SensorState) :
    (_reset_meter s)._state = some 0 ∧
    (_reset_meter s)._cumulative_energy_kwh = 0 ∧
    (_reset_meter s)._last_energy_reading = s._last_energy_reading ∧
    _reset_meter (_reset_meter s) = _reset_meter s :=
  ⟨rfl, rfl, rfl, rfl⟩

/-- C9: when both feeds pass the availability guard but at least one value
fails to parse as a number, the update returns the state unchanged. -/
theorem C9_malformed_reading_noop (s : SensorState) (ef pf : FeedValue)
    (hef : feed_skipped ef = false) (hpf : feed_skipped pf = false)
    (h : parse_float ef = none ∨ parse_float pf = none) :
    async_update s ef pf = s := by
  cases hE : parse_float ef <;> cases hP : parse_float pf <;>
    simp [async_update, hef, hpf, hE, hP]
  simp [hE, hP] at h

/-- Witness for C9 at a concrete input: a malformed energy reading. -/
theorem C9_witness :
    async_update (⟨some 7, 2, some 10, "EUR", none⟩ : SensorState)
        FeedValue.malformed (FeedValue.numeric 3) =
      ⟨some 7, 2, some 10, "EUR", none⟩ :=
  C9_malformed_reading_noop _ _ _ rfl rfl (Or.inl rfl)

/-- C8: for any interval string outside daily/monthly/yearly, the
next-boundary computation produces no result and construction of the
sensor instance fails. -/
theorem C8_unrecognized_interval_is_fatal (interval : String) (T : Dt)
    (h1 : interval ≠ "daily") (h2 : interval ≠ "monthly") (h3 : interval ≠ "yearly") :
    _calculate_next_reset_time interval T = none ∧ sensor_init interval T = none := by
  have hc : _calculate_next_reset_time interval T = none := by
    simp [_calculate_next_reset_time, h1, h2, h3]
  exact ⟨hc, by simp [sensor_init, hc]⟩

/-- Witness for C8 at a concrete input: the interval string `hourly`. -/
theorem C8_witness :
    _calculate_next_reset_time "hourly" ⟨⟨2024, 1, 1⟩, 0, 0, 0, 0⟩ = none ∧
    sensor_init "hourly" ⟨⟨2024, 1, 1⟩, 0, 0, 0, 0⟩ = none :=
  C8_unrecognized_interval_is_fatal "hourly" _ (by decide) (by decide) (by decide)

/-- C10: when the snapshot's state parses as a number `q` but the
`last_energy_reading` attribute (or, with that one present and numeric,
the `cumulative_energy_kwh` attribute) is absent or non-numeric, the
restore step raises, and the fields hydrated before the failing `float`
call keep their restored values. -/
theorem C10_restore_raises_and_is_not_atomic (s : SensorState) (snap : Snapshot)
    (pu : Option String) (q : ℚ) (hstate : snap.state = FeedValue.numeric q) :
    (float_attr snap.attr_last_energy_reading = none →
       async_added_to_hass s (some snap) pu =
         RestoreOutcome.raised { s with _state := some q }) ∧
    (∀ l : ℚ, float_attr snap.attr_last_energy_reading = some l →
       float_attr snap.attr_cumulative_energy_kwh = none →
       async_added_to_hass s (some snap) pu =
         RestoreOutcome.raised { s with _state := some q, _last_energy_reading := some l }) := by
  constructor
  · intro h
    simp [async_added_to_hass, hstate, h]
  · intro l hl hc
    simp [async_added_to_hass, hstate, hl, hc]

/-- Witness for C10 at a concrete input: a snapshot whose attribute
dictionary lacks the `last_energy_reading` key. -/
theorem C10_witness :
    async_added_to_hass (⟨none, 0, none, "EUR", none⟩ : SensorState)
        (some ⟨FeedValue.numeric 5, none, some (AttrValue.num 3), none⟩) none =
      RestoreOutcome.raised ⟨some 5, 0, none, "EUR", none⟩ :=
  (C10_restore_raises_and_is_not_atomic _ _ none 5 rfl).1 rfl

/-- C7 counterexample: with a previous reading recorded and running cost
0, an update with energy reading 1 and price −1 (a numeric value the
price feed may report) drives the running cost from 0 down to −1, so the
running cost is not monotonically non-decreasing under arbitrary numeric
prices. -/
theorem C7_counterexample_negative_price :
    (async_update c7_before (FeedValue.numeric 1) (FeedValue.numeric (-1)))._state
        = some (-1) ∧
    c7_before._state = some 0 ∧
    ¬ c7_before._state.getD 0 ≤
        (async_update c7_before (FeedValue.numeric 1) (FeedValue.numeric (-1)))._state.getD 0 := by
  refine ⟨?_, rfl, ?_⟩ <;>
    simp [async_update, c7_before, feed_skipped, parse_float]

/-- C7 as amended: whenever every numeric value the price feed can hand
to the update is non-negative, a single `async_update` never decreases
the running cost (reading the `None` cost as its accrual base 0). -/
theorem C7_running_cost_monotone_nonneg_price (s : SensorState) (ef pf : FeedValue)
    (hp : ∀ p : ℚ, pf = FeedValue.numeric p → 0 ≤ p) :
    s._state.getD 0 ≤ (async_update s ef pf)._state.getD 0 := by
  cases ef <;> cases pf <;> simp [async_update, feed_skipped, parse_float]
  case numeric.numeric e p =>
    have hp' : 0 ≤ p := hp p rfl
    cases hl : s._last_energy_reading with
    | none => simp
    | some l =>
      by_cases hle : l ≤ e
      · have hinc : 0 ≤ (e - l) * p := mul_nonneg (by linarith) hp'
        simp [hle]
        linarith
      · simp [hle]

/-- Witness for C7's amended statement at a concrete input: price 2. -/
theorem C7_witness :
    (⟨some 7, 2, some 10, "EUR", none⟩ : SensorState)._state.getD 0 ≤
      (async_update (⟨some 7, 2, some 10, "EUR", none⟩ : SensorState)
        (FeedValue.numeric 11) (FeedValue.numeric 2))._state.getD 0 :=
  C7_running_cost_monotone_nonneg_price _ _ _
    (fun p h => by injection h with h'; rw [← h']; norm_num)

/-- C3: evaluating publish-then-restore at a concrete instance whose unit
label is not the default currency.  The cost, cumulative energy and last
reading round-trip exactly, but the snapshot's unit is written into the
dead `_attr_unit_of_measurement` slot, so the `unit_of_measurement`
property of the restored instance still returns the default currency
instead of the original's label. -/
theorem C3_restore_drops_unit_label :
    sensor_init "daily" ⟨⟨2024, 1, 1⟩, 0, 0, 0, 0⟩ = some c3_fresh ∧
    async_added_to_hass c3_fresh (some (publish_snapshot c3_original)) none =
      RestoreOutcome.ok
        ⟨some 5, 3, some 10, DEFAULT_CURRENCY, some "XYZ"⟩ ∧
    unit_of_measurement c3_original = "XYZ" ∧
    unit_of_measurement (⟨some 5, 3, some 10, DEFAULT_CURRENCY, some "XYZ"⟩ : SensorState)
        = DEFAULT_CURRENCY ∧
    DEFAULT_CURRENCY ≠ "XYZ" := by
  refine ⟨?_, ?_, rfl, rfl, by decide⟩
  · rfl
  · rfl

/-- Invariant behind C1: from a state holding cost `c`, cumulative energy
`k` and last reading `l`, a non-decreasing chain of readings starting at
or above `l`, all priced at `p`, accrues exactly the total increment
times `p`. -/
theorem run_updates_chain (p : ℚ) (es : List ℚ) :
    ∀ (l c k : ℚ) (uu : String) (au : Option String),
      List.Chain (· ≤ ·) l es →
      run_updates ⟨some c, k, some l, uu, au⟩ p es =
        ⟨some (c + (es.getLastD l - l) * p), k + (es.getLastD l - l),
         some (es.getLastD l), uu, au⟩ := by
  induction es with
  | nil =>
    intro l c k uu au _
    simp [run_updates]
  | cons e es ih =>
    intro l c k uu au h
    rw [List.chain_cons] at h
    obtain ⟨hle, hch⟩ := h
    have step : async_update (⟨some c, k, some l, uu, au⟩ : SensorState)
        (FeedValue.numeric e) (FeedValue.numeric p) =
        ⟨some (c + (e - l) * p), k + (e - l), some e, uu, au⟩ := by
      simp [async_update, feed_skipped, parse_float, hle]
    have hfold : run_updates (⟨some c, k, some l, uu, au⟩ : SensorState) p (e :: es) =
        run_updates (⟨some (c + (e - l) * p), k + (e - l), some e, uu, au⟩ : SensorState) p es := by
      simp [run_updates, step]
    rw [hfold, ih e (c + (e - l) * p) (k + (e - l)) uu au hch, List.getLastD_cons]
    have h1 : c + (e - l) * p + (es.getLastD e - e) * p = c + (es.getLastD e - l) * p := by
      ring
    have h2 : k + (e - l) + (es.getLastD e - e) = k + (es.getLastD e - l) := by
      ring
    rw [h1, h2]

/-- C1: starting from the fresh state (no last reading, running cost and
cumulative energy zero), delivering a non-decreasing sequence of readings
`e1 :: rest` with the price feed reporting `p` at every update leaves the
running cost at `p × (en − e1)` and the cumulative energy at `en − e1`,
where `en` is the final reading. -/
theorem C1_constant_price_accrual (p e1 : ℚ) (rest : List ℚ)
    (hchain : List.Chain (· ≤ ·) e1 rest) :
    (run_updates fresh_state p (e1 :: rest))._state =
      some (p * (rest.getLastD e1 - e1)) ∧
    (run_updates fresh_state p (e1 :: rest))._cumulative_energy_kwh =
      rest.getLastD e1 - e1 := by
  have hfirst : run_updates fresh_state p (e1 :: rest) =
      run_updates (⟨some 0, 0, some e1, DEFAULT_CURRENCY, none⟩ : SensorState) p rest := by
    simp [run_updates, fresh_state, async_update, feed_skipped, parse_float]
  rw [hfirst, run_updates_chain p rest e1 0 0 DEFAULT_CURRENCY none hchain]
  constructor
  · simp only [Option.some.injEq]
    ring
  · ring

/-- Witness for C1 at a concrete input: readings 1 ≤ 2 ≤ 4, price 3. -/
theorem C1_witness :
    (run_updates fresh_state 3 [1, 2, 4])._state = some (3 * (4 - 1)) ∧
    (run_updates fresh_state 3 [1, 2, 4])._cumulative_energy_kwh = 4 - 1 := by
  have h := C1_constant_price_accrual 3 1 [2, 4]
    (by norm_num [List.chain_cons])
  simpa using h

/-- Every month has at least 28 days. -/
theorem days_in_month_ge (y m : ℕ) : 28 ≤ days_in_month y m := by
  unfold days_in_month
  split
  · split <;> omega
  · split <;> omega

/-- Every month has at most 31 days. -/
theorem days_in_month_le (y m : ℕ) : days_in_month y m ≤ 31 := by
  unfold days_in_month
  split
  · split <;> omega
  · split <;> omega

/-- Adding days composes. -/
theorem add_days_add (a b : ℕ) (d : Date) :
    add_days (a + b) d = add_days b (add_days a d) := by
  induction a generalizing d with
  | zero =>
    rw [Nat.zero_add]
    rfl
  | succ n ih =>
    have hn : n + 1 + b = (n + b) + 1 := by omega
    rw [hn]
    show add_days (n + b) (next_day d) = add_days b (add_days (n + 1) d)
    rw [ih (next_day d)]
    rfl

/-- Adding days that stay inside the month just advances the day. -/
theorem add_days_within (k y m d : ℕ) (h1 : 1 ≤ d)
    (h2 : d + k ≤ days_in_month y m) :
    add_days k ⟨y, m, d⟩ = ⟨y, m, d + k⟩ := by
  induction k generalizing d with
  | zero => rfl
  | succ n ih =>
    have hd : d < days_in_month y m := by omega
    have hstep : next_day ⟨y, m, d⟩ = ⟨y, m, d + 1⟩ := by
      unfold next_day
      simp [hd]
    show add_days n (next_day ⟨y, m, d⟩) = _
    rw [hstep, ih (d + 1) (by omega) (by omega)]
    have : d + 1 + n = d + (n + 1) := by omega
    rw [this]

/-- The successor of the last day of a month is the first day of the next
month. -/
theorem next_day_at_month_end (y m : ℕ) :
    next_day ⟨y, m, days_in_month y m⟩ =
      if m < 12 then (⟨y, m + 1, 1⟩ : Date) else ⟨y + 1, 1, 1⟩ := by
  unfold next_day
  simp

/-- Day 1 of a month plus 32 days lands inside the following month (day
33 − length of the current month), for every month length 28-31. -/
theorem add_days_32_from_first (y m : ℕ) :
    add_days 32 ⟨y, m, 1⟩ =
      if m < 12 then (⟨y, m + 1, 33 - days_in_month y m⟩ : Date)
      else ⟨y + 1, 1, 33 - days_in_month y m⟩ := by
  have hge := days_in_month_ge y m
  have hle := days_in_month_le y m
  have hsplit : 32 = (days_in_month y m - 1) + 1 + (32 - days_in_month y m) := by
    omega
  rw [hsplit, add_days_add, add_days_add,
      add_days_within (days_in_month y m - 1) y m 1 le_rfl (by omega)]
  have hfull : 1 + (days_in_month y m - 1) = days_in_month y m := by omega
  rw [hfull]
  show add_days (32 - days_in_month y m) (next_day ⟨y, m, days_in_month y m⟩) = _
  rw [next_day_at_month_end]
  by_cases h12 : m < 12
  · have hge' := days_in_month_ge y (m + 1)
    rw [if_pos h12, if_pos h12,
        add_days_within (32 - days_in_month y m) y (m + 1) 1 le_rfl (by omega)]
    have : 1 + (32 - days_in_month y m) = 33 - days_in_month y m := by omega
    rw [this]
  · have hge' := days_in_month_ge (y + 1) 1
    rw [if_neg h12, if_neg h12,
        add_days_within (32 - days_in_month y m) (y + 1) 1 1 le_rfl (by omega)]
    have : 1 + (32 - days_in_month y m) = 33 - days_in_month y m := by omega
    rw [this]

/-- The calendar successor of a valid date is strictly later. -/
theorem lt_next_day (a : Date) (ha : a.Valid) : a.lt (next_day a) := by
  obtain ⟨y, m, d⟩ := a
  simp only [Date.Valid] at ha
  unfold next_day Date.lt
  split_ifs <;> simp_all

/-- The calendar successor is the least valid date strictly later: any
valid date strictly after `a` is at or after `next_day a`. -/
theorem next_day_le_of_lt (a b : Date) (ha : a.Valid) (hb : b.Valid)
    (hab : a.lt b) : (next_day a).le b := by
  obtain ⟨ya, ma, da⟩ := a
  obtain ⟨yb, mb, db⟩ := b
  simp only [Date.Valid] at ha hb
  obtain ⟨ham1, ham2, had1, had2⟩ := ha
  obtain ⟨hbm1, hbm2, hbd1, hbd2⟩ := hb
  simp only [Date.lt] at hab
  unfold next_day Date.le
  rcases hab with hy | ⟨hy, hm | ⟨hm, hd⟩⟩
  · split_ifs <;> simp_all
    all_goals omega
  · subst hy
    split_ifs <;> simp_all <;> omega
  · subst hy
    subst hm
    split_ifs <;> simp_all <;> omega

/-- A midnight datetime is at or before any datetime of an equal-or-later
date. -/
theorem dt_le_of_midnight_date_le (a b : Dt) (h : a.date.le b.date)
    (h1 : a.hour = 0) (h2 : a.minute = 0) (h3 : a.second = 0)
    (h4 : a.microsecond = 0) : Dt.le a b := by
  obtain ⟨⟨ya, ma, da⟩, ah, am, as, au⟩ := a
  obtain ⟨⟨yb, mb, db⟩, bh, bm, bs, bu⟩ := b
  simp only at h1 h2 h3 h4
  subst h1 h2 h3 h4
  simp only [Date.le] at h
  simp only [Dt.le, Date.lt, Date.mk.injEq]
  omega

/-- A datetime strictly precedes every datetime of a strictly later date. -/
theorem dt_lt_of_date_lt (a b : Dt) (h : a.date.lt b.date) : Dt.lt a b :=
  Or.inl h

/-- C6: for every valid current time `T`, the boundary computation
returns, for `daily`, the next midnight strictly after `T` (the least
valid midnight strictly after `T`, so a `T` at exact midnight yields the
following midnight); for `monthly`, the first moment of the calendar
month after `T`, whatever the current month's length; for `yearly`, the
first moment of January 1 of the next year; and each result is strictly
after `T`. -/
theorem C6_next_reset_boundaries (T : Dt) (hT : T.Valid) :
    (∃ R : Dt, _calculate_next_reset_time "daily" T = some R ∧ IsNextMidnightAfter T R) ∧
    (_calculate_next_reset_time "monthly" T = some (spec_first_of_next_month T) ∧
      Dt.lt T (spec_first_of_next_month T)) ∧
    (_calculate_next_reset_time "yearly" T = some (spec_first_of_next_year T) ∧
      Dt.lt T (spec_first_of_next_year T)) := by
  obtain ⟨hTd, hTtime⟩ := hT
  refine ⟨?_, ⟨?_, ?_⟩, ⟨?_, ?_⟩⟩
  · refine ⟨⟨next_day T.date, 0, 0, 0, 0⟩, rfl, rfl, rfl, rfl, rfl, ?_, ?_⟩
    · exact Or.inl (lt_next_day T.date hTd)
    · intro R' hR' h1 h2 h3 h4 hTR'
      rcases hTR' with hdate | ⟨hdeq, htime⟩
      · exact dt_le_of_midnight_date_le _ _
          (next_day_le_of_lt T.date R'.date hTd hR'.1 hdate) rfl rfl rfl rfl
      · exfalso
        rw [h1, h2, h3, h4] at htime
        omega
  · have hcalc : _calculate_next_reset_time "monthly" T =
        some ⟨⟨(add_days 32 ⟨T.date.year, T.date.month, 1⟩).year,
               (add_days 32 ⟨T.date.year, T.date.month, 1⟩).month, 1⟩, 0, 0, 0, 0⟩ := rfl
    have h32 := add_days_32_from_first T.date.year T.date.month
    by_cases h12 : T.date.month < 12
    · rw [if_pos h12] at h32
      rw [hcalc, h32]
      simp [spec_first_of_next_month, h12]
    · rw [if_neg h12] at h32
      rw [hcalc, h32]
      simp [spec_first_of_next_month, h12]
  · by_cases h12 : T.date.month < 12
    · have hs : spec_first_of_next_month T =
          ⟨⟨T.date.year, T.date.month + 1, 1⟩, 0, 0, 0, 0⟩ := by
        simp [spec_first_of_next_month, h12]
      rw [hs]
      exact Or.inl (Or.inr ⟨rfl, Or.inl (Nat.lt_succ_self _)⟩)
    · have hs : spec_first_of_next_month T =
          ⟨⟨T.date.year + 1, 1, 1⟩, 0, 0, 0, 0⟩ := by
        simp [spec_first_of_next_month, h12]
      rw [hs]
      exact Or.inl (Or.inl (Nat.lt_succ_self _))
  · rfl
  · exact Or.inl (Or.inl (Nat.lt_succ_self _))

/-- Witness for C6 at a concrete input: the last day of February in a
leap year, one microsecond before midnight. -/
theorem C6_witness :
    _calculate_next_reset_time "monthly" ⟨⟨2024, 2, 29⟩, 23, 59, 59, 999999⟩ =
      some ⟨⟨2024, 3, 1⟩, 0, 0, 0, 0⟩ ∧
    _calculate_next_reset_time "yearly" ⟨⟨2024, 2, 29⟩, 23, 59, 59, 999999⟩ =
      some ⟨⟨2025, 1, 1⟩, 0, 0, 0, 0⟩ := by
  have h := C6_next_reset_boundaries ⟨⟨2024, 2, 29⟩, 23, 59, 59, 999999⟩ (by decide)
  constructor
  · have hm := h.2.1.1
    simpa [spec_first_of_next_month] using hm
  · have hy := h.2.2.1
    simpa [spec_first_of_next_year] using hy

end DynamicEnergyCost
